import Mathlib

/-!
Verification of the flow-chart navigation, prompt construction, controller
error handling, and video segment extraction logic of the jiujitsu
repository (``.streamlit/Jiu-Jitsu functions.py`` and ``.streamlit/app.py``).

Python strings are embedded as `List Char`; Python `in`, `str.strip()` and
`str.split(sep)` are given faithful executable counterparts.  The external
collaborators (the generative AI service, cv2) are modelled as explicit
inputs: an AI call is an `Except` value supplied to the controller step, a
video file is an optional list of frames, and an exception raised by the
video library mid-loop is an injection point `failAt`.
-/

namespace Jiujitsu

/-- Python strings, embedded as lists of characters. -/
abbrev PyStr := List Char

/-- Python substring test `needle in hay`: contiguous-substring containment. -/
def pyIn (needle hay : PyStr) : Bool := decide (needle <:+: hay)

/-- Python `s.strip()`: remove leading and trailing whitespace. -/
def pyStrip (s : PyStr) : PyStr :=
  ((s.dropWhile Char.isWhitespace).reverse.dropWhile Char.isWhitespace).reverse

/-- Index of the first occurrence of `sep` as a substring of `s`, if any. -/
def findSub (sep : PyStr) : PyStr → Option Nat
  | [] => if sep.isPrefixOf [] then some 0 else none
  | c :: t =>
    if sep.isPrefixOf (c :: t) then some 0
    else (findSub sep t).map (· + 1)

/-- Worker for Python `s.split(sep)`: repeatedly cut at the first occurrence
of `sep`.  `fuel` bounds the number of cuts; since every cut consumes at
least `sep.length ≥ 1` characters of a shrinking string, `fuel = s.length`
is always enough for the nonempty separators used in the source. -/
def splitOnFuel (sep : PyStr) : Nat → PyStr → List PyStr
  | 0, s => [s]
  | fuel + 1, s =>
    match findSub sep s with
    | none => [s]
    | some i => s.take i :: splitOnFuel sep fuel (s.drop (i + sep.length))

/-- Python `s.split(sep)` for a nonempty separator. -/
def pySplit (s sep : PyStr) : List PyStr := splitOnFuel sep s.length s

/-- The edge-statement separator `"-->"` of `next_move`. -/
def arrow : PyStr := "-->".toList

/-- The label-opening bracket `"["` of `next_move`. -/
def lbrack : PyStr := "[".toList

/-- The line separator `"\n"` of `next_move`. -/
def newline : PyStr := "\n".toList

/-- The body of `next_move`'s match branch, given `parts = line.split("-->")`
(source: `target = parts[1].strip()`; if `"[" in target` then
`target.split("[")[0].strip()` else `target`). -/
def extractFromParts (parts : List PyStr) : PyStr :=
  let target := pyStrip (parts.getD 1 [])
  if pyIn lbrack target then pyStrip ((pySplit target lbrack).getD 0 [])
  else target

/-- Target-label extraction from one matching edge line of the diagram. -/
def extractTarget (line : PyStr) : PyStr := extractFromParts (pySplit line arrow)

/-- The scanning loop of `next_move` (`Jiu-Jitsu functions.py`): walk the
lines in document order; on the first line with `move_text in line and
"-->" in line`, split on `"-->"` and (when at least two parts result, which
the source guards with `len(parts) >= 2`) return the extracted target,
breaking out of the loop; otherwise keep scanning.  `none` means the loop
finished with `new_position` still `None`. -/
def scanLines (moveText : PyStr) : List PyStr → Option PyStr
  | [] => none
  | line :: rest =>
    if pyIn moveText line && pyIn arrow line then
      let parts := pySplit line arrow
      if 2 ≤ parts.length then some (extractFromParts parts)
      else scanLines moveText rest
    else scanLines moveText rest

/-- Outcome of `next_move`: either the original flow chart is returned
unchanged, or the function calls `generate_flow_chart` centred on the
resolved node label. -/
inductive NextMoveOutcome where
  | stay (chart : PyStr)
  | navigate (newPosition : PyStr)
deriving DecidableEq

/-- `next_move(flow_chart, move_text, ...)` from `Jiu-Jitsu functions.py`:
`lines = flow_chart.strip().split('\n')`, scan for the first matching edge
statement, and `if not new_position: return flow_chart` — Python falsiness,
so both `None` and the empty string leave the chart unchanged; otherwise
generate a new chart centred on `new_position`. -/
def next_move (flowChart moveText : PyStr) : NextMoveOutcome :=
  match scanLines moveText (pySplit (pyStrip flowChart) newline) with
  | none => .stay flowChart
  | some p => if p = [] then .stay flowChart else .navigate p

/-- A source video as cv2 exposes it to `_extract_video_segment` in
`app.py`: the frame sequence plus the `CAP_PROP_FPS`,
`CAP_PROP_FRAME_WIDTH` and `CAP_PROP_FRAME_HEIGHT` properties.  Frames are
abstract, represented by natural numbers.  `cv2.VideoCapture(input_path)`
is modelled as an `Option Video`: `none` is a capture for which
`cap.isOpened()` is false. -/
structure Video where
  frames : List Nat
  fps : ℚ
  width : Nat
  height : Nat
deriving DecidableEq

/-- State of the `cv2.VideoWriter` at function exit: the properties it was
created with (`fourcc` is a fixed constant in the source and is omitted)
and the frames written to it. -/
structure WriterState where
  fps : ℚ
  width : Nat
  height : Nat
  written : List Nat
deriving DecidableEq

/-- Observable trace of one `_extract_video_segment` run: whether
`cap.release()` and `out.release()` were called before the function
returned, and the writer state (`none` when the writer was never
created). -/
structure ExtractTrace where
  capReleased : Bool
  outReleased : Bool
  writer : Option WriterState
deriving DecidableEq

/-- An exception raised inside the `try` block (the source catches the
blanket `Exception`). -/
inductive PyExn where
  | generic
deriving DecidableEq

/-- Python `int(q)` on a float value: truncation toward zero. -/
def pyInt (q : ℚ) : ℤ := if 0 ≤ q then ⌊q⌋ else ⌈q⌉

/-- The read/write loop of `_extract_video_segment`:
`while current_frame <= end_frame: ret, frame = cap.read(); if not ret:
break; out.write(frame); current_frame += 1`.
`n` is the number of iterations the guard still allows, i.e.
`end_frame + 1 - current_frame` clamped at zero (exact for the Python
loop over ints); `pos` is the capture's read position after
`cap.set(cv2.CAP_PROP_POS_FRAMES, start_frame)` (cv2 clamps an
out-of-range seek, hence `Int.toNat` at the call site); `failAt = some k`
injects an exception raised by the `k`-th `cap.read()` of this call
(`none`: no exception occurs).  Returns the frames written and whether an
exception was raised. -/
def readLoop (frames : List Nat) (failAt : Option Nat) :
    Nat → Nat → Nat → List Nat × Bool
  | 0, _, _ => ([], false)
  | n + 1, pos, k =>
    if failAt = some k then ([], true)
    else
      match frames[pos]? with
      | some fr =>
        let r := readLoop frames failAt n (pos + 1) (k + 1)
        (fr :: r.1, r.2)
      | none => ([], false)

/-- The `try:` block of `_extract_video_segment` (`app.py`): open the
capture (`return False` if `not cap.isOpened()`), read `fps`/`width`/
`height`, create the writer with the same properties, compute
`start_frame = int(start_time * fps)` and `end_frame = int(end_time *
fps)`, seek, run the loop, release both handles, `return True`.  An
injected exception ends the block with `Except.error`; note that no
release happens on that path (there is no `finally` in the source), nor on
the not-opened path. -/
def extractBody (input : Option Video) (startTime endTime : ℚ)
    (failAt : Option Nat) : Except PyExn Bool × ExtractTrace :=
  match input with
  | none => (.ok false, ⟨false, false, none⟩)
  | some v =>
    let startFrame := pyInt (startTime * v.fps)
    let endFrame := pyInt (endTime * v.fps)
    let r := readLoop v.frames failAt (endFrame + 1 - startFrame).toNat startFrame.toNat 0
    if r.2 then
      (.error .generic, ⟨false, false, some ⟨v.fps, v.width, v.height, r.1⟩⟩)
    else
      (.ok true, ⟨true, true, some ⟨v.fps, v.width, v.height, r.1⟩⟩)

/-- `_extract_video_segment(input_path, output_path, start_time,
end_time)` from `app.py`: the whole body is wrapped in
`try: ... except Exception as e: print(...); return False`, so the caller
always receives a boolean and no exception propagates. -/
def extractVideoSegment (input : Option Video) (startTime endTime : ℚ)
    (failAt : Option Nat) : Bool × ExtractTrace :=
  match extractBody input startTime endTime failAt with
  | (.ok b, tr) => (b, tr)
  | (.error _, tr) => (false, tr)

/-- Result of the segment-extraction step at the start of
`analyze_grappling_match` (`app.py`): which video the analysis will use,
whether `_extract_video_segment` was called, and the boolean it
returned. -/
structure AnalyzeSelection where
  video_to_analyze : PyStr
  extract_called : Bool
  extract_result : Option Bool
deriving DecidableEq

/-- The video-selection step of `analyze_grappling_match` (`app.py`):
`video_to_analyze = video_path`; when `start_time` and `end_time` are both
not `None`, `subset_path` is built from `os.path.splitext(video_path)`
(the library call is modelled by passing its `(stem, ext)` output as
inputs), `_extract_video_segment(...)` is called — and its boolean result
is discarded by the source — then `video_to_analyze = subset_path`
unconditionally. -/
def analyze_match_video_selection (videoPath stem ext : PyStr)
    (startTime endTime : Option ℚ) (extractResult : Bool) : AnalyzeSelection :=
  match startTime, endTime with
  | some _, some _ =>
    ⟨stem ++ "_subset".toList ++ ext, true, some extractResult⟩
  | _, _ => ⟨videoPath, false, none⟩

/-- `match_type = "MMA" if isMMA else "Jiu-jitsu"`, the ruleset label
interpolated by every flag-taking prompt builder. -/
def match_type : Bool → PyStr
  | true => "MMA".toList
  | false => "Jiu-jitsu".toList

/-- The prompt assembled by `generate_grappling_plan`
(`Jiu-Jitsu functions.py`), up to the `genai.generate_image_description`
call. -/
def generate_grappling_plan_prompt (player_variable : PyStr) (isMMA : Bool)
    (keywords : PyStr) : PyStr :=
  "the image is a still frame from a grappling match. The match has ".toList
    ++ match_type isMMA ++ " rules. ".toList
    ++ "I want you to analyze: ".toList ++ player_variable
    ++ ", and provide three options for the next immediate steps ".toList
    ++ "towards grappling moves that would work best for them given their current position. ".toList
    ++ "I want these steps to be listed in quick bullet format like ex: \"1) <<step>> : towards <<move>>, 2) ...\". ".toList
    ++ "Base the recommendations on historical MMA and Jiu-jitsu match performance. ".toList
    ++ (if keywords = [] then []
        else "I want you to also take special note of the following keywords for your image and recommendation analysis: ".toList
          ++ keywords)

/-- The prompt assembled by `analyse_grappling_match`
(`Jiu-Jitsu functions.py`). -/
def analyse_grappling_match_prompt (player_variable : PyStr) (isMMA : Bool)
    (keywords : PyStr) : PyStr :=
  "these images are frames from a grappling match. The match has ".toList
    ++ match_type isMMA ++ " rules. ".toList
    ++ "I want you to analyze: ".toList ++ player_variable
    ++ ", and provide an analysis of what went right or wrong ".toList
    ++ "during the match, along with some recommendations for the ".toList
    ++ player_variable ++ " in their next match. ".toList
    ++ "I want these recommendations to be listed in a quick summary format. ".toList
    ++ "Base the recommendations on the athlete's body type, jiu-jitsu guard situation, and historical ".toList
    ++ "MMA and Jiu-jitsu match performance. ".toList
    ++ (if keywords = [] then []
        else "I want you to also take special note of the following keywords for your analysis: ".toList
          ++ keywords)

/-- The prompt assembled by `generate_flow_chart`
(`Jiu-Jitsu functions.py`). -/
def generate_flow_chart_prompt (measurables position_variable : PyStr)
    (isMMA : Bool) (favorite_ideas : PyStr) : PyStr :=
  "I want you to generate a Mermaid based radial visual flow chart of jiu-jitsu moves that will have the greatest likelihood ".toList
    ++ "of success for an athlete with the following measurables: ".toList
    ++ measurables ++ ". ".toList
    ++ "I want this chart to focus on ".toList ++ position_variable
    ++ " under the ".toList ++ match_type isMMA ++ " ruleset".toList
    ++ (if favorite_ideas = [] then []
        else ", and take into account that the athlete has the following ideas: ".toList
          ++ favorite_ideas)
    ++ " of the athlete. Could you label the flow arrows in the diagram using a description of the primary movement required to get to that bubble. Only return the mermaid object, and not any shoulder text whatsoever".toList

/-- The prompt assembled by the shadowing `generate_grappling_plan` defined
in `app.py`. -/
def app_generate_grappling_plan_prompt (player_variable : PyStr) (isMMA : Bool)
    (keywords : PyStr) : PyStr :=
  "The image is a still frame from a grappling match. The match has ".toList
    ++ match_type isMMA ++ " rules. ".toList
    ++ "I want you to analyze: ".toList ++ player_variable
    ++ ", and provide three options for the next immediate steps ".toList
    ++ "towards grappling moves that would work best for them given their current position. ".toList
    ++ "I want these steps to be listed in quick bullet format like ex: \"1) <<step>> : towards <<move>>, 2) ...\". ".toList
    ++ "Base the recommendations on historical MMA and Jiu-jitsu match performance. ".toList
    ++ (if keywords = [] then []
        else "I want you to also take special note of the following keywords for your image and recommendation analysis: ".toList
          ++ keywords)

/-- The prompt assembled by `analyze_grappling_match` in `app.py`. -/
def app_analyze_grappling_match_prompt (player_variable : PyStr) (isMMA : Bool)
    (keywords : PyStr) : PyStr :=
  "These images are frames from a grappling match. The match has ".toList
    ++ match_type isMMA ++ " rules. ".toList
    ++ "I want you to analyze: ".toList ++ player_variable
    ++ ", and provide an analysis of what went right or wrong ".toList
    ++ "during the match, along with some recommendations for the ".toList
    ++ player_variable ++ " in their next match. ".toList
    ++ "I want these recommendations to be listed in a quick summary format. ".toList
    ++ "Base the recommendations on the athlete's body type, jiu-jitsu guard situation, and historical ".toList
    ++ "MMA and Jiu-jitsu match performance. ".toList
    ++ (if keywords = [] then []
        else "I want you to also take special note of the following keywords for your analysis: ".toList
          ++ keywords)

/-- The prompt assembled by the shadowing `generate_flow_chart` defined in
`app.py`. -/
def app_generate_flow_chart_prompt (measurables position_variable : PyStr)
    (isMMA : Bool) (favorite_ideas : PyStr) : PyStr :=
  "I want you to generate a visual flow chart of jiu-jitsu moves that will have the greatest likelihood ".toList
    ++ "of success for an athlete with the following measurables: ".toList
    ++ measurables ++ ". ".toList
    ++ "I want this chart to focus on ".toList ++ position_variable
    ++ " position under the ".toList ++ match_type isMMA ++ " ruleset".toList
    ++ (if favorite_ideas = [] then []
        else ", and take into account that the athlete has the following ideas: ".toList
          ++ favorite_ideas)

/-- The session state touched by the FLOW Chart Generator screen of
`app.py`: the current flow chart and the current athlete attributes. -/
structure SessionState where
  current_flowchart : Option PyStr
  current_attributes : PyStr
deriving DecidableEq

/-- The `try/except` body behind the "Generate Flow Chart" button
(`app.py`): the external `generate_flow_chart` AI call is modelled by its
outcome `ai`; on success the session's flow chart is replaced, on an
exception `st.error(f"An error occurred: {str(e)}")` is shown and nothing
is assigned.  Returns the new session state and the displayed error
message, if any. -/
def generate_flow_chart_button (s : SessionState) (ai : Except PyStr PyStr) :
    SessionState × Option PyStr :=
  match ai with
  | .ok chart => ({ s with current_flowchart := some chart }, none)
  | .error e => (s, some ("An error occurred: ".toList ++ e))

/-- A run of `next_move` including its external call: when navigation
resolves, the result is whatever `generate_flow_chart` returns (`ai`),
and an exception there propagates; when it stays, the original chart is
returned and no AI call happens. -/
def next_move_run (chart moveText : PyStr) (ai : Except PyStr PyStr) :
    Except PyStr PyStr :=
  match next_move chart moveText with
  | .stay c => .ok c
  | .navigate _ => ai

/-- The `try/except` body behind the "Flow" button (`app.py`): only runs
with a current flow chart; first the membership check
`chosen_next in st.session_state.current_flowchart` (on failure the "Osu!"
message is shown), then `next_move` inside `try`; on success the session's
flow chart is replaced, on an exception the error is shown and the state
is left untouched. -/
def flow_button (s : SessionState) (chosen_next : PyStr)
    (ai : Except PyStr PyStr) : SessionState × Option PyStr :=
  match s.current_flowchart with
  | none => (s, none)
  | some chart =>
    if pyIn chosen_next chart then
      match next_move_run chart chosen_next ai with
      | .ok c => ({ s with current_flowchart := some c }, none)
      | .error e => (s, some ("An error occurred: ".toList ++ e))
    else
      (s, some "Osu! That move is not in the current flow chart. Try another move.".toList)

lemma pyIn_eq_true {n h : PyStr} : pyIn n h = true ↔ n <:+: h := by
  simp [pyIn]

lemma findSub_isSome_of_prefix_drop {sep : PyStr} :
    ∀ (s : PyStr) (i : Nat), sep <+: s.drop i → (findSub sep s).isSome = true := by
  intro s
  induction s with
  | nil =>
    intro i hi
    simp only [List.drop_nil] at hi
    have : sep = [] := List.prefix_nil.mp hi
    simp [findSub, this]
  | cons c t ih =>
    intro i hi
    match i with
    | 0 =>
      simp only [List.drop_zero] at hi
      simp [findSub, List.isPrefixOf_iff_prefix.mpr hi]
    | j + 1 =>
      simp only [List.drop_succ_cons] at hi
      have := ih j hi
      by_cases hp : sep.isPrefixOf (c :: t) = true
      · simp [findSub, hp]
      · simp only [findSub, hp]
        simpa using this

lemma splitOnFuel_length_pos (sep : PyStr) (fuel : Nat) (s : PyStr) :
    1 ≤ (splitOnFuel sep fuel s).length := by
  match fuel with
  | 0 => simp [splitOnFuel]
  | fuel + 1 =>
    cases h : findSub sep s with
    | none => simp [splitOnFuel, h]
    | some i => simp [splitOnFuel, h]

lemma two_le_parts {line : PyStr} (h : pyIn arrow line = true) :
    2 ≤ (pySplit line arrow).length := by
  obtain ⟨pre, suf, heq⟩ := pyIn_eq_true.mp h
  have hdrop : arrow <+: line.drop pre.length := by
    have : line.drop pre.length = arrow ++ suf := by
      rw [← heq, List.append_assoc, List.drop_left]
    rw [this]
    exact List.prefix_append arrow suf
  have hsome := findSub_isSome_of_prefix_drop line pre.length hdrop
  match line with
  | [] =>
    exfalso
    have : arrow = [] := List.prefix_nil.mp (by simpa using hdrop)
    simp [arrow] at this
  | c :: t =>
    obtain ⟨i, hi⟩ := Option.isSome_iff_exists.mp hsome
    have : pySplit (c :: t) arrow
        = (c :: t).take i :: splitOnFuel arrow t.length ((c :: t).drop (i + arrow.length)) := by
      simp [pySplit, splitOnFuel, hi]
    rw [this]
    simpa using splitOnFuel_length_pos arrow t.length ((c :: t).drop (i + arrow.length))

lemma scanLines_append_none (moveText : PyStr) (pre ls : List PyStr)
    (h : ∀ l ∈ pre, (pyIn moveText l && pyIn arrow l) = false) :
    scanLines moveText (pre ++ ls) = scanLines moveText ls := by
  induction pre with
  | nil => rfl
  | cons p pre ih =>
    have hp : (pyIn moveText p && pyIn arrow p) = false := h p (by simp)
    have hrest : ∀ l ∈ pre, (pyIn moveText l && pyIn arrow l) = false :=
      fun l hl => h l (by simp [hl])
    simp [scanLines, hp, ih hrest]

lemma scanLines_eq_none (moveText : PyStr) (ls : List PyStr)
    (h : ∀ l ∈ ls, (pyIn moveText l && pyIn arrow l) = false) :
    scanLines moveText ls = none := by
  induction ls with
  | nil => rfl
  | cons p ls ih =>
    have hp : (pyIn moveText p && pyIn arrow p) = false := h p (by simp)
    have hrest : ∀ l ∈ ls, (pyIn moveText l && pyIn arrow l) = false :=
      fun l hl => h l (by simp [hl])
    simp [scanLines, hp, ih hrest]

lemma scanLines_cons_match (moveText line : PyStr) (rest : List PyStr)
    (hline : (pyIn moveText line && pyIn arrow line) = true) :
    scanLines moveText (line :: rest) = some (extractTarget line) := by
  have harrow : pyIn arrow line = true := by
    have h := hline
    simp only [Bool.and_eq_true] at h
    exact h.2
  simp [scanLines, hline, two_le_parts harrow, extractTarget]

lemma readLoop_no_fail (frames : List Nat) :
    ∀ (n pos k : Nat),
      (readLoop frames none n pos k).2 = false ∧
      (readLoop frames none n pos k).1.length = min n (frames.length - pos) := by
  intro n
  induction n with
  | zero => intro pos k; simp [readLoop]
  | succ n ih =>
    intro pos k
    cases hp : frames[pos]? with
    | none =>
      have hlen : frames.length ≤ pos := by
        simpa using List.getElem?_eq_none_iff.mp hp
      simp [readLoop, hp, Nat.sub_eq_zero_of_le hlen]
    | some fr =>
      have hlt : pos < frames.length := by
        by_contra hge
        rw [List.getElem?_eq_none (by omega)] at hp
        exact Option.noConfusion hp
      obtain ⟨h2, hlen⟩ := ih (pos + 1) (k + 1)
      refine ⟨by simp [readLoop, hp, h2], ?_⟩
      simp [readLoop, hp, hlen]
      omega

lemma pyIn_append_self (x r : PyStr) : pyIn x (x ++ r) = true :=
  pyIn_eq_true.mpr ⟨[], r, by simp⟩

lemma pyIn_append_right (l : PyStr) {x m : PyStr} (h : pyIn x m = true) :
    pyIn x (l ++ m) = true := by
  obtain ⟨s, t, hst⟩ := pyIn_eq_true.mp h
  exact pyIn_eq_true.mpr ⟨l ++ s, t, by rw [← hst]; simp⟩

lemma extract_exception_body_eq :
    extractBody (some ⟨[1, 2, 3], 1, 640, 480⟩) 0 2 (some 0)
      = (Except.error PyExn.generic, ⟨false, false, some ⟨1, 640, 480, []⟩⟩) := by
  have h0 : pyInt ((0 : ℚ)) = 0 := by norm_num [pyInt]
  have h2 : pyInt ((2 : ℚ)) = 2 := by norm_num [pyInt]
  simp [extractBody, h0, h2, readLoop]

/-- C1: `next_move` scans the diagram's lines in document order and selects
the first edge statement (a line containing `"-->"`) whose full text
contains the chosen move text as a substring; it resolves to the target
label extracted by `extractTarget` (text after `"-->"` up to the target's
leading `"["`, or the full target text if no bracket is present, with
surrounding whitespace stripped), and generates the next chart centred on
that label. -/
theorem nextMove_first_match (chart moveText : PyStr) (pre : List PyStr)
    (line : PyStr) (rest : List PyStr)
    (hsplit : pySplit (pyStrip chart) newline = pre ++ line :: rest)
    (hpre : ∀ l ∈ pre, (pyIn moveText l && pyIn arrow l) = false)
    (hline : (pyIn moveText line && pyIn arrow line) = true)
    (htarget : extractTarget line ≠ []) :
    next_move chart moveText = .navigate (extractTarget line) := by
  unfold next_move
  rw [hsplit, scanLines_append_none moveText pre (line :: rest) hpre,
    scanLines_cons_match moveText line rest hline]
  simp [htarget]

/-- C1 witness: for the diagram
`"A --> B[armbar setup]\nX --> Y[armbar finish]"` and chosen text
`"armbar"`, the first matching line is the `B` edge and navigation resolves
to `B`, not `Y`. -/
theorem nextMove_first_match_witness :
    pySplit (pyStrip "A --> B[armbar setup]\nX --> Y[armbar finish]".toList) newline
      = [] ++ "A --> B[armbar setup]".toList :: ["X --> Y[armbar finish]".toList] ∧
    (pyIn "armbar".toList "A --> B[armbar setup]".toList
      && pyIn arrow "A --> B[armbar setup]".toList) = true ∧
    extractTarget "A --> B[armbar setup]".toList = "B".toList ∧
    next_move "A --> B[armbar setup]\nX --> Y[armbar finish]".toList "armbar".toList
      = .navigate (extractTarget "A --> B[armbar setup]".toList) :=
  ⟨by decide, by decide, by decide,
    nextMove_first_match _ _ [] _ ["X --> Y[armbar finish]".toList]
      (by decide) (by simp) (by decide) (by decide)⟩

/-- C2: when no line of the diagram contains both the chosen move text and
`"-->"`, resolution yields the no-transition sentinel (`None` in the
source, `none` here) rather than an exception, and `next_move` returns the
original flow chart unchanged. -/
theorem nextMove_no_match (chart moveText : PyStr)
    (h : ∀ l ∈ pySplit (pyStrip chart) newline,
      (pyIn moveText l && pyIn arrow l) = false) :
    scanLines moveText (pySplit (pyStrip chart) newline) = none ∧
    next_move chart moveText = .stay chart := by
  have hn := scanLines_eq_none moveText (pySplit (pyStrip chart) newline) h
  refine ⟨hn, ?_⟩
  unfold next_move
  rw [hn]

/-- C2 witness: diagram `"A --> B[pass guard]\nB --> C[mount]"` with chosen
text `"submission"` resolves to `none` and the chart is returned
unmodified. -/
theorem nextMove_no_match_witness :
    scanLines "submission".toList
      (pySplit (pyStrip "A --> B[pass guard]\nB --> C[mount]".toList) newline) = none ∧
    next_move "A --> B[pass guard]\nB --> C[mount]".toList "submission".toList
      = .stay "A --> B[pass guard]\nB --> C[mount]".toList :=
  nextMove_no_match "A --> B[pass guard]\nB --> C[mount]".toList "submission".toList
    (by decide)

/-- C9: when the first line containing both the chosen move text and
`"-->"` yields an empty target label after splitting on `"-->"` and
stripping the bracketed label and whitespace, `next_move` treats it like a
miss (Python falsiness of the empty string) and returns the original flow
chart unchanged. -/
theorem nextMove_empty_target (chart moveText : PyStr) (pre : List PyStr)
    (line : PyStr) (rest : List PyStr)
    (hsplit : pySplit (pyStrip chart) newline = pre ++ line :: rest)
    (hpre : ∀ l ∈ pre, (pyIn moveText l && pyIn arrow l) = false)
    (hline : (pyIn moveText line && pyIn arrow line) = true)
    (htarget : extractTarget line = []) :
    next_move chart moveText = .stay chart := by
  unfold next_move
  rw [hsplit, scanLines_append_none moveText pre (line :: rest) hpre,
    scanLines_cons_match moveText line rest hline]
  simp [htarget]

/-- C9 witness: for the diagram `"A --> [armbar]"` and chosen text
`"armbar"` the matched line's target label strips to the empty string, and
the original chart is returned. -/
theorem nextMove_empty_target_witness :
    pySplit (pyStrip "A --> [armbar]".toList) newline
      = [] ++ "A --> [armbar]".toList :: [] ∧
    (pyIn "armbar".toList "A --> [armbar]".toList
      && pyIn arrow "A --> [armbar]".toList) = true ∧
    extractTarget "A --> [armbar]".toList = [] ∧
    next_move "A --> [armbar]".toList "armbar".toList
      = .stay "A --> [armbar]".toList :=
  ⟨by decide, by decide, by decide,
    nextMove_empty_target _ _ [] "A --> [armbar]".toList []
      (by decide) (by simp) (by decide) (by decide)⟩

/-- C3: for an opened video and a valid time range
(`0 ≤ start < end`, `end` within the source duration), the extractor
succeeds and writes the inclusive frame range
`int(start*fps) .. int(end*fps)`: the output frame count is
`⌊end*fps⌋ - ⌊start*fps⌋ + 1` within −1 for the boundary case
`end*fps = frame count`, and the writer is created with the source's fps,
width and height. -/
theorem extract_segment_spec (v : Video) (startTime endTime : ℚ)
    (hfps : 0 < v.fps) (h0 : 0 ≤ startTime) (hse : startTime < endTime)
    (hdur : endTime * v.fps ≤ (v.frames.length : ℚ)) :
    ∃ w, (extractVideoSegment (some v) startTime endTime none).1 = true ∧
      (extractVideoSegment (some v) startTime endTime none).2.writer = some w ∧
      w.fps = v.fps ∧ w.width = v.width ∧ w.height = v.height ∧
      (⌊endTime * v.fps⌋ - ⌊startTime * v.fps⌋ : ℤ) ≤ (w.written.length : ℤ) ∧
      (w.written.length : ℤ) ≤ ⌊endTime * v.fps⌋ - ⌊startTime * v.fps⌋ + 1 := by
  have hs0 : 0 ≤ startTime * v.fps := mul_nonneg h0 hfps.le
  have hse' : startTime * v.fps ≤ endTime * v.fps :=
    mul_le_mul_of_nonneg_right hse.le hfps.le
  have he0 : 0 ≤ endTime * v.fps := hs0.trans hse'
  have hsf : pyInt (startTime * v.fps) = ⌊startTime * v.fps⌋ := if_pos hs0
  have hef : pyInt (endTime * v.fps) = ⌊endTime * v.fps⌋ := if_pos he0
  have h0s : (0 : ℤ) ≤ ⌊startTime * v.fps⌋ := Int.le_floor.mpr (by exact_mod_cast hs0)
  have hfl : ⌊startTime * v.fps⌋ ≤ ⌊endTime * v.fps⌋ := Int.floor_le_floor hse'
  have hfe : ⌊endTime * v.fps⌋ ≤ (v.frames.length : ℤ) := by
    have := Int.floor_le_floor hdur
    rwa [Int.floor_natCast] at this
  obtain ⟨hnofail, hlen⟩ := readLoop_no_fail v.frames
    ((pyInt (endTime * v.fps) + 1 - pyInt (startTime * v.fps)).toNat)
    ((pyInt (startTime * v.fps)).toNat) 0
  have hkey : extractVideoSegment (some v) startTime endTime none
      = (true, ⟨true, true, some ⟨v.fps, v.width, v.height,
          (readLoop v.frames none
            ((pyInt (endTime * v.fps) + 1 - pyInt (startTime * v.fps)).toNat)
            ((pyInt (startTime * v.fps)).toNat) 0).1⟩⟩) := by
    unfold extractVideoSegment extractBody
    simp [hnofail]
  have hlow : (⌊endTime * v.fps⌋ - ⌊startTime * v.fps⌋ : ℤ)
      ≤ ((readLoop v.frames none
          ((pyInt (endTime * v.fps) + 1 - pyInt (startTime * v.fps)).toNat)
          ((pyInt (startTime * v.fps)).toNat) 0).1.length : ℤ) := by
    rw [hlen, hsf, hef]
    omega
  have hhigh : ((readLoop v.frames none
        ((pyInt (endTime * v.fps) + 1 - pyInt (startTime * v.fps)).toNat)
        ((pyInt (startTime * v.fps)).toNat) 0).1.length : ℤ)
      ≤ ⌊endTime * v.fps⌋ - ⌊startTime * v.fps⌋ + 1 := by
    rw [hlen, hsf, hef]
    omega
  exact ⟨⟨v.fps, v.width, v.height,
      (readLoop v.frames none
        ((pyInt (endTime * v.fps) + 1 - pyInt (startTime * v.fps)).toNat)
        ((pyInt (startTime * v.fps)).toNat) 0).1⟩,
    by rw [hkey], by rw [hkey], rfl, rfl, rfl, hlow, hhigh⟩

/-- C3 witness: a 4-frame video at 2 fps, extracted from 0 s to 1.5 s,
yields frames `0 .. 3` — 4 frames — with the source properties. -/
theorem extract_segment_spec_witness :
    (0 : ℚ) < 2 ∧ (0 : ℚ) ≤ 0 ∧ (0 : ℚ) < 3 / 2 ∧
      (3 / 2 : ℚ) * 2 ≤ (([10, 20, 30, 40] : List Nat).length : ℚ) ∧
    (∃ w, (extractVideoSegment (some ⟨[10, 20, 30, 40], 2, 640, 480⟩) 0 (3 / 2) none).1 = true ∧
      (extractVideoSegment (some ⟨[10, 20, 30, 40], 2, 640, 480⟩) 0 (3 / 2) none).2.writer = some w ∧
      w.fps = 2 ∧ w.width = 640 ∧ w.height = 480 ∧
      (⌊(3 / 2 : ℚ) * 2⌋ - ⌊(0 : ℚ) * 2⌋ : ℤ) ≤ (w.written.length : ℤ) ∧
      (w.written.length : ℤ) ≤ ⌊(3 / 2 : ℚ) * 2⌋ - ⌊(0 : ℚ) * 2⌋ + 1) :=
  ⟨by norm_num, le_refl 0, by norm_num, by norm_num,
    extract_segment_spec ⟨[10, 20, 30, 40], 2, 640, 480⟩ 0 (3 / 2)
      (by norm_num) (le_refl 0) (by norm_num) (by norm_num)⟩

/-- C4 counterexample: when the video cannot be opened the extractor does
not fail with an `IOError` (or any exception) — the `try` block runs
`return False` and the function returns `False`. -/
theorem extract_open_fail_no_exception :
    (extractBody none 0 1 none).1 = Except.ok false ∧
    (extractVideoSegment none 0 1 none).1 = false :=
  ⟨rfl, rfl⟩

/-- C4 (amended): for every input path whose video cannot be opened, the
segment extractor fails by returning `False`; no exception is raised. -/
theorem extract_open_fail_returns_false (startTime endTime : ℚ)
    (failAt : Option Nat) :
    (extractVideoSegment none startTime endTime failAt).1 = false ∧
    (extractBody none startTime endTime failAt).1 = Except.ok false :=
  ⟨rfl, rfl⟩

/-- C6: at a concrete opened 3-frame video with a valid range, an
exception raised by the first `cap.read()` is caught by the blanket
`except`, which returns `False` without ever calling `cap.release()` or
`out.release()` — the source has no `finally`, so the exceptional exit
path leaks both handles. -/
theorem extract_exception_skips_release :
    (extractBody (some ⟨[1, 2, 3], 1, 640, 480⟩) 0 2 (some 0)).1
      = Except.error PyExn.generic ∧
    (extractVideoSegment (some ⟨[1, 2, 3], 1, 640, 480⟩) 0 2 (some 0)).1 = false ∧
    (extractVideoSegment (some ⟨[1, 2, 3], 1, 640, 480⟩) 0 2 (some 0)).2.capReleased = false ∧
    (extractVideoSegment (some ⟨[1, 2, 3], 1, 640, 480⟩) 0 2 (some 0)).2.outReleased = false := by
  have hseg : extractVideoSegment (some ⟨[1, 2, 3], 1, 640, 480⟩) 0 2 (some 0)
      = (false, ⟨false, false, some ⟨1, 640, 480, []⟩⟩) := by
    unfold extractVideoSegment
    rw [extract_exception_body_eq]
  exact ⟨extract_exception_body_eq ▸ rfl, by rw [hseg], by rw [hseg], by rw [hseg]⟩

/-- C10: the extractor is total at its boundary: it returns `True` exactly
when the capture opened and no internal exception occurred, and `False`
both when the video cannot be opened and when an exception is raised
inside the `try` block; the `except` wrapper means no exception ever
reaches the caller. -/
theorem extract_total_boundary (input : Option Video) (startTime endTime : ℚ)
    (failAt : Option Nat) :
    (extractVideoSegment input startTime endTime failAt).1 = true ↔
      (∃ v, input = some v) ∧
      ∀ e, (extractBody input startTime endTime failAt).1 ≠ Except.error e := by
  cases input with
  | none => simp [extractVideoSegment, extractBody]
  | some v =>
    by_cases hr : (readLoop v.frames failAt
        ((pyInt (endTime * v.fps) + 1 - pyInt (startTime * v.fps)).toNat)
        ((pyInt (startTime * v.fps)).toNat) 0).2 = true
    · unfold extractVideoSegment extractBody
      simp [hr]
      exact ⟨PyExn.generic, trivial⟩
    · unfold extractVideoSegment extractBody
      simp [hr]

/-- C5 evidence: when extraction of `match.mp4` fails (returns `False`),
`analyze_grappling_match` still analyzes `match_subset.mp4` — a different
path from the original — instead of falling back to the untrimmed
video. -/
theorem analyze_ignores_extract_failure :
    (analyze_match_video_selection "match.mp4".toList "match".toList ".mp4".toList
      (some 0) (some 5) false).extract_result = some false ∧
    (analyze_match_video_selection "match.mp4".toList "match".toList ".mp4".toList
      (some 0) (some 5) false).video_to_analyze = "match_subset.mp4".toList ∧
    "match_subset.mp4".toList ≠ "match.mp4".toList := by
  refine ⟨rfl, by decide, by decide⟩

/-- C7: in every flag-taking prompt builder of both modules, and for every
combination of the remaining parameters, the generated instructions
contain the literal ruleset label `"MMA"` when the flag is `True` and the
literal label `"Jiu-jitsu"` when it is `False`. -/
theorem prompt_ruleset_label (player_variable keywords measurables
    position_variable favorite_ideas : PyStr) :
    pyIn "MMA".toList (generate_grappling_plan_prompt player_variable true keywords) = true ∧
    pyIn "Jiu-jitsu".toList (generate_grappling_plan_prompt player_variable false keywords) = true ∧
    pyIn "MMA".toList (analyse_grappling_match_prompt player_variable true keywords) = true ∧
    pyIn "Jiu-jitsu".toList (analyse_grappling_match_prompt player_variable false keywords) = true ∧
    pyIn "MMA".toList (generate_flow_chart_prompt measurables position_variable true favorite_ideas) = true ∧
    pyIn "Jiu-jitsu".toList (generate_flow_chart_prompt measurables position_variable false favorite_ideas) = true ∧
    pyIn "MMA".toList (app_generate_grappling_plan_prompt player_variable true keywords) = true ∧
    pyIn "Jiu-jitsu".toList (app_generate_grappling_plan_prompt player_variable false keywords) = true ∧
    pyIn "MMA".toList (app_analyze_grappling_match_prompt player_variable true keywords) = true ∧
    pyIn "Jiu-jitsu".toList (app_analyze_grappling_match_prompt player_variable false keywords) = true ∧
    pyIn "MMA".toList (app_generate_flow_chart_prompt measurables position_variable true favorite_ideas) = true ∧
    pyIn "Jiu-jitsu".toList (app_generate_flow_chart_prompt measurables position_variable false favorite_ideas) = true := by
  refine ⟨?_, ?_, ?_, ?_, ?_, ?_, ?_, ?_, ?_, ?_, ?_, ?_⟩
  all_goals
    simp only [generate_grappling_plan_prompt, analyse_grappling_match_prompt,
      generate_flow_chart_prompt, app_generate_grappling_plan_prompt,
      app_analyze_grappling_match_prompt, app_generate_flow_chart_prompt,
      match_type, List.append_assoc]
  · exact pyIn_append_right _ (pyIn_append_self _ _)
  · exact pyIn_append_right _ (pyIn_append_self _ _)
  · exact pyIn_append_right _ (pyIn_append_self _ _)
  · exact pyIn_append_right _ (pyIn_append_self _ _)
  · exact pyIn_append_right _ (pyIn_append_right _ (pyIn_append_right _
      (pyIn_append_right _ (pyIn_append_right _ (pyIn_append_right _
        (pyIn_append_right _ (pyIn_append_self _ _)))))))
  · exact pyIn_append_right _ (pyIn_append_right _ (pyIn_append_right _
      (pyIn_append_right _ (pyIn_append_right _ (pyIn_append_right _
        (pyIn_append_right _ (pyIn_append_self _ _)))))))
  · exact pyIn_append_right _ (pyIn_append_self _ _)
  · exact pyIn_append_right _ (pyIn_append_self _ _)
  · exact pyIn_append_right _ (pyIn_append_self _ _)
  · exact pyIn_append_right _ (pyIn_append_self _ _)
  · exact pyIn_append_right _ (pyIn_append_right _ (pyIn_append_right _
      (pyIn_append_right _ (pyIn_append_right _ (pyIn_append_right _
        (pyIn_append_right _ (pyIn_append_self _ _)))))))
  · exact pyIn_append_right _ (pyIn_append_right _ (pyIn_append_right _
      (pyIn_append_right _ (pyIn_append_right _ (pyIn_append_right _
        (pyIn_append_right _ (pyIn_append_self _ _)))))))

/-- C8: when the external AI call of a generation or navigation action
fails (raises), the controller catches it at the handler boundary, shows a
visible error message, and leaves the session state — in particular the
current flow chart — unchanged. -/
theorem controller_error_leaves_state (s : SessionState) (e : PyStr) :
    generate_flow_chart_button s (.error e)
      = (s, some ("An error occurred: ".toList ++ e)) ∧
    ∀ chart chosen_next p, s.current_flowchart = some chart →
      pyIn chosen_next chart = true →
      next_move chart chosen_next = .navigate p →
      flow_button s chosen_next (.error e)
        = (s, some ("An error occurred: ".toList ++ e)) := by
  refine ⟨rfl, ?_⟩
  intro chart chosen_next p hs hin hnav
  simp [flow_button, hs, hin, next_move_run, hnav]

/-- C8 witness: with current flow chart `"A --> B[armbar]"`, choosing
`"armbar"` resolves to a navigation whose AI call fails with `"boom"`;
both handlers show the error and leave the state unchanged. -/
theorem controller_error_leaves_state_witness :
    generate_flow_chart_button
        ⟨some "A --> B[armbar]".toList, "tall and heavy".toList⟩
        (.error "boom".toList)
      = (⟨some "A --> B[armbar]".toList, "tall and heavy".toList⟩,
         some ("An error occurred: ".toList ++ "boom".toList)) ∧
    flow_button ⟨some "A --> B[armbar]".toList, "tall and heavy".toList⟩
        "armbar".toList (.error "boom".toList)
      = (⟨some "A --> B[armbar]".toList, "tall and heavy".toList⟩,
         some ("An error occurred: ".toList ++ "boom".toList)) :=
  ⟨(controller_error_leaves_state
      ⟨some "A --> B[armbar]".toList, "tall and heavy".toList⟩ "boom".toList).1,
   (controller_error_leaves_state
      ⟨some "A --> B[armbar]".toList, "tall and heavy".toList⟩ "boom".toList).2
      "A --> B[armbar]".toList "armbar".toList "B".toList rfl
      (by decide) (by decide)⟩

end Jiujitsu
